/-
Verification of the conversation-context and analytics-aggregation core of
the Swawam-Sites application (src/analytics.py, src/ai_features.py,
src/api_client.py), as a shallow embedding in Lean 4.

Modelling conventions:
* Python floats are modelled as exact rationals (ℚ); binary floating-point
  rounding artifacts are outside the scope of the embedding.
* Python dicts that are used in insertion order (`model_usage`,
  `user_activity`) are modelled as association lists in insertion order.
* The analytics JSON file on disk is modelled by `DiskState`: the file may be
  missing, hold text that `json.load` cannot parse (`corrupt`), or hold a
  parseable JSON document (`stored`).  JSON documents are modelled by a small
  `Json` AST with the two constructors the analytics snapshot uses (numbers
  and string-keyed objects); `json.dump`/`json.load` of the snapshot are
  modelled by `encodeAnalytics`/`decodeAnalytics`.
* Streamlit `st.error` reporting is modelled as a Boolean "reported" flag
  where a claim depends on it.
-/
import Mathlib

namespace Swawam

/-! ## Data model: usage records and statistics (src/analytics.py) -/

/-- The fields of the `conversation_data` dict that `update_analytics` reads
(src/analytics.py lines 53-63, 79-115).  `total_tokens` is
`prompt_tokens + response_tokens` as built by `save_conversation` line 62. -/
structure UsageRecord where
  username : String
  model : String
  response_time : ℚ
  prompt_tokens : Nat
  response_tokens : Nat
deriving DecidableEq, Repr

/-- Total tokens of a record, as computed by `save_conversation` line 62. -/
def UsageRecord.total_tokens (r : UsageRecord) : Nat :=
  r.prompt_tokens + r.response_tokens

/-- The analytics snapshot (the dict persisted in `analytics_data.json`).
`model_usage` and `user_activity` are insertion-ordered association lists. -/
structure Analytics where
  total_conversations : Nat
  total_tokens : Nat
  avg_response_time : ℚ
  model_usage : List (String × Nat)
  user_activity : List (String × Nat)
deriving DecidableEq, Repr

/-- The zero-valued default snapshot returned by `load_analytics` when the
file is missing or unreadable (src/analytics.py lines 127-133, 140-146). -/
def defaultAnalytics : Analytics :=
  { total_conversations := 0
    total_tokens := 0
    avg_response_time := 0
    model_usage := []
    user_activity := [] }

/-- `if key in d: d[key] += 1 else: d[key] = 1` on an insertion-ordered dict
(src/analytics.py lines 90-93 and 109-112): an existing key keeps its
position, a new key is appended at the end. -/
def bumpCount (key : String) : List (String × Nat) → List (String × Nat)
  | [] => [(key, 1)]
  | (k, v) :: rest =>
      if k = key then (k, v + 1) :: rest else (k, v) :: bumpCount key rest

/-- The in-memory mutation performed by `update_analytics`
(src/analytics.py lines 88-112): bump the model counter, increment
`total_conversations` and `total_tokens`, update the running average via
`((old_avg * (new_count - 1)) + new_time) / new_count` with `new_count` the
post-increment `total_conversations` (lines 102-105), and bump the user
counter. -/
def update_stats (a : Analytics) (r : UsageRecord) : Analytics :=
  let new_count := a.total_conversations + 1
  { total_conversations := new_count
    total_tokens := a.total_tokens + r.total_tokens
    avg_response_time :=
      (a.avg_response_time * ((new_count : ℚ) - 1) + r.response_time) / (new_count : ℚ)
    model_usage := bumpCount r.model a.model_usage
    user_activity := bumpCount r.username a.user_activity }

/-- Applying a whole sequence of records starting from the zero-initialized
statistics. -/
def applyAll (rs : List UsageRecord) : Analytics :=
  rs.foldl update_stats defaultAnalytics

/-! ## Supporting lemmas for the running average and count invariants -/

theorem total_conversations_foldl (rs : List UsageRecord) :
    ∀ a : Analytics,
      (rs.foldl update_stats a).total_conversations =
        a.total_conversations + rs.length := by
  induction rs with
  | nil => intro a; simp
  | cons r rs ih =>
      intro a
      simp only [List.foldl_cons, List.length_cons]
      rw [ih]
      simp [update_stats]
      omega

theorem avg_mul_count_foldl (rs : List UsageRecord) :
    ∀ a : Analytics,
      (rs.foldl update_stats a).avg_response_time *
          ((a.total_conversations + rs.length : ℕ) : ℚ) =
        a.avg_response_time * (a.total_conversations : ℚ) +
          (rs.map (·.response_time)).sum := by
  induction rs with
  | nil => intro a; simp
  | cons r rs ih =>
      intro a
      simp only [List.foldl_cons, List.length_cons, List.map_cons, List.sum_cons]
      have h := ih (update_stats a r)
      have hc : (update_stats a r).total_conversations = a.total_conversations + 1 := by
        simp [update_stats]
      rw [hc] at h
      have hn : ((a.total_conversations + 1 : ℕ) : ℚ) ≠ 0 := by
        exact_mod_cast Nat.succ_ne_zero a.total_conversations
      have ha : (update_stats a r).avg_response_time *
          ((a.total_conversations + 1 : ℕ) : ℚ) =
          a.avg_response_time * (a.total_conversations : ℚ) + r.response_time := by
        simp only [update_stats]
        push_cast
        field_simp
      calc (rs.foldl update_stats (update_stats a r)).avg_response_time *
            ((a.total_conversations + (rs.length + 1) : ℕ) : ℚ)
          = (rs.foldl update_stats (update_stats a r)).avg_response_time *
            ((a.total_conversations + 1 + rs.length : ℕ) : ℚ) := by
            congr 2
            omega
        _ = (update_stats a r).avg_response_time *
              ((update_stats a r).total_conversations : ℚ) +
              (rs.map (·.response_time)).sum := by rw [h, hc]
        _ = a.avg_response_time * (a.total_conversations : ℚ) + r.response_time +
              (rs.map (·.response_time)).sum := by rw [hc]; rw [ha]
        _ = a.avg_response_time * (a.total_conversations : ℚ) +
              (r.response_time + (rs.map (·.response_time)).sum) := by ring

/-! ## JSON persistence model (src/analytics.py lines 118-160) -/

/-- The fragment of JSON that the analytics snapshot uses: numbers and
string-keyed objects (insertion-ordered, as written by `json.dump`). -/
inductive Json where
  | num (q : ℚ)
  | obj (fields : List (String × Json))

/-- Field lookup in a JSON object, first match wins. -/
def jLookup (key : String) : List (String × Json) → Option Json
  | [] => none
  | (k, v) :: rest => if k = key then some v else jLookup key rest

/-- Read a JSON number back as a nonnegative integer count. -/
def asNat : Json → Option Nat
  | .num q => if q.den = 1 ∧ 0 ≤ q.num then some q.num.toNat else none
  | _ => none

/-- Read a JSON number back as a rational. -/
def asRat : Json → Option ℚ
  | .num q => some q
  | _ => none

/-- Encode an insertion-ordered counter dict as a JSON object. -/
def encodeCounts (l : List (String × Nat)) : Json :=
  .obj (l.map fun p => (p.1, .num (p.2 : ℚ)))

/-- Decode the fields of a JSON object back into a counter dict. -/
def decodeCountFields : List (String × Json) → Option (List (String × Nat))
  | [] => some []
  | (k, v) :: rest =>
      match asNat v, decodeCountFields rest with
      | some n, some l => some ((k, n) :: l)
      | _, _ => none

/-- Decode a JSON value as a counter dict. -/
def decodeCounts : Json → Option (List (String × Nat))
  | .obj fields => decodeCountFields fields
  | _ => none

/-- The JSON document that `save_analytics` writes via `json.dump`
(src/analytics.py lines 156-158), with the dict's key order. -/
def encodeAnalytics (a : Analytics) : Json :=
  .obj [("total_conversations", .num (a.total_conversations : ℚ)),
        ("total_tokens", .num (a.total_tokens : ℚ)),
        ("avg_response_time", .num a.avg_response_time),
        ("model_usage", encodeCounts a.model_usage),
        ("user_activity", encodeCounts a.user_activity)]

/-- Read an analytics snapshot back out of a JSON document. -/
def decodeAnalytics : Json → Option Analytics
  | .obj fields => do
      let tc ← (jLookup "total_conversations" fields).bind asNat
      let tt ← (jLookup "total_tokens" fields).bind asNat
      let avg ← (jLookup "avg_response_time" fields).bind asRat
      let mu ← (jLookup "model_usage" fields).bind decodeCounts
      let ua ← (jLookup "user_activity" fields).bind decodeCounts
      pure { total_conversations := tc
             total_tokens := tt
             avg_response_time := avg
             model_usage := mu
             user_activity := ua }
  | _ => none

/-- The state of `analytics_data.json`: the file may be absent, hold text
that `json.load` fails to parse, or hold a parseable JSON document. -/
inductive DiskState where
  | missing
  | corrupt
  | stored (j : Json)

/-- `load_analytics` (src/analytics.py lines 118-146): a missing file yields
the zero default; a parse failure is caught, reported via `st.error`, and
also yields the zero default; otherwise the parsed document is returned.
(A parseable document that does not have the snapshot's shape cannot be
produced by `save_analytics` and never arises in any claim; the typed
embedding maps it to the default.) -/
def load_analytics : DiskState → Analytics
  | .missing => defaultAnalytics
  | .corrupt => defaultAnalytics
  | .stored j => (decodeAnalytics j).getD defaultAnalytics

/-- `save_analytics` (src/analytics.py lines 149-160): on a successful write
the file is overwritten with the encoded snapshot; on a write failure the
exception is caught, `st.error` is called (the returned Boolean flag), and
the file is left as it was. -/
def save_analytics (a : Analytics) (writeOk : Bool) (d : DiskState) :
    DiskState × Bool :=
  if writeOk then (.stored (encodeAnalytics a), false) else (d, true)

/-- `update_analytics` (src/analytics.py lines 79-115): load the snapshot
from disk, apply the in-memory mutation, save back.  Returns the new disk
state and whether a save error was reported. -/
def update_analytics (r : UsageRecord) (writeOk : Bool) (d : DiskState) :
    DiskState × Bool :=
  save_analytics (update_stats (load_analytics d) r) writeOk d

/-! ## Round-trip of the persistence encoding -/

theorem asNat_encode (n : Nat) : asNat (.num (n : ℚ)) = some n := by
  simp [asNat]

theorem decodeCountFields_encode (l : List (String × Nat)) :
    decodeCountFields (l.map fun p => (p.1, .num (p.2 : ℚ))) = some l := by
  induction l with
  | nil => rfl
  | cons p rest ih =>
      simp only [List.map_cons, decodeCountFields, asNat_encode, ih]

theorem decodeCounts_encodeCounts (l : List (String × Nat)) :
    decodeCounts (encodeCounts l) = some l := by
  simp [decodeCounts, encodeCounts, decodeCountFields_encode]

theorem decodeAnalytics_encodeAnalytics (a : Analytics) :
    decodeAnalytics (encodeAnalytics a) = some a := by
  simp [decodeAnalytics, encodeAnalytics, jLookup, asNat, asRat,
    decodeCounts_encodeCounts, Option.bind]

/-- Loading after a successful save recovers the in-memory snapshot. -/
theorem load_after_save (a : Analytics) (d : DiskState) :
    load_analytics (save_analytics a true d).1 = a := by
  simp [load_analytics, save_analytics, decodeAnalytics_encodeAnalytics]

/-- When every save succeeds, chaining `update_analytics` through the disk
is the same as folding the pure in-memory mutation. -/
theorem load_foldl_update_analytics (rs : List UsageRecord) :
    ∀ d : DiskState,
      load_analytics (rs.foldl (fun d r => (update_analytics r true d).1) d) =
        (load_analytics d |> rs.foldl update_stats) := by
  induction rs with
  | nil => intro d; rfl
  | cons r rs ih =>
      intro d
      simp only [List.foldl_cons]
      rw [ih]
      simp [update_analytics, load_after_save]

/-! ## Count-sum invariant -/

/-- Sum of all counts in a counter dict (`sum(d.values())`). -/
def sumCounts (l : List (String × Nat)) : Nat :=
  (l.map (·.2)).sum

theorem sumCounts_bumpCount (key : String) (l : List (String × Nat)) :
    sumCounts (bumpCount key l) = sumCounts l + 1 := by
  induction l with
  | nil => rfl
  | cons p rest ih =>
      obtain ⟨k, v⟩ := p
      by_cases h : k = key
      · simp [bumpCount, h, sumCounts]
        omega
      · simp only [bumpCount, if_neg h]
        simp only [sumCounts, List.map_cons, List.sum_cons] at ih ⊢
        omega

theorem counts_invariant_foldl (rs : List UsageRecord) :
    ∀ a : Analytics,
      sumCounts a.model_usage = a.total_conversations →
      sumCounts a.user_activity = a.total_conversations →
      sumCounts (rs.foldl update_stats a).model_usage =
          (rs.foldl update_stats a).total_conversations ∧
        sumCounts (rs.foldl update_stats a).user_activity =
          (rs.foldl update_stats a).total_conversations := by
  induction rs with
  | nil => intro a h1 h2; exact ⟨h1, h2⟩
  | cons r rs ih =>
      intro a h1 h2
      simp only [List.foldl_cons]
      exact ih (update_stats a r)
        (by simp [update_stats, sumCounts_bumpCount, h1])
        (by simp [update_stats, sumCounts_bumpCount, h2])

/-! ## Claim theorems C1 and C2 -/

/-- C1: for every sequence of applied usage records starting from the
zero-initialized statistics, the stored `avg_response_time` equals the
arithmetic mean of all latencies passed in so far — the incremental
recurrence `new_avg = (old_avg * (n-1) + new_latency) / n` with `n` the
post-increment `total_conversations` is equivalent to recomputing the mean
over the full history.  The second conjunct shows that, with every save
succeeding, the snapshot stored on disk is exactly this folded in-memory
state, so the equation also holds for the stored value after each apply. -/
theorem C1_avg_is_mean (rs : List UsageRecord) :
    (applyAll rs).avg_response_time =
        (rs.map (·.response_time)).sum / (rs.length : ℚ) ∧
      load_analytics
          (rs.foldl (fun d r => (update_analytics r true d).1) DiskState.missing) =
        applyAll rs := by
  constructor
  · rcases Nat.eq_zero_or_pos rs.length with hlen | hlen
    · rw [List.length_eq_zero] at hlen
      subst hlen
      simp [applyAll, defaultAnalytics]
    · have h := avg_mul_count_foldl rs defaultAnalytics
      simp only [defaultAnalytics, Nat.zero_add, Nat.cast_ofNat, zero_mul,
        zero_add] at h
      have hne : ((rs.length : ℕ) : ℚ) ≠ 0 := by
        exact_mod_cast Nat.pos_iff_ne_zero.mp hlen
      rw [eq_div_iff hne]
      simpa [applyAll, defaultAnalytics] using h
  · rw [load_foldl_update_analytics]
    rfl

/-- C2: after every sequence of applied records starting from the
zero-initialized statistics, `sum(model_usage.values())` and
`sum(user_activity.values())` both equal `total_conversations`. -/
theorem C2_count_sums (rs : List UsageRecord) :
    sumCounts (applyAll rs).model_usage = (applyAll rs).total_conversations ∧
      sumCounts (applyAll rs).user_activity = (applyAll rs).total_conversations :=
  counts_invariant_foldl rs defaultAnalytics rfl rfl

/-! ## Conversation context and request building
(src/ai_features.py lines 12-88, src/api_client.py lines 103-154) -/

/-- A chat message `{role, content}`. -/
structure Message where
  role : String
  content : String
deriving DecidableEq, Repr

/-- `add_message_to_context` (src/ai_features.py lines 19-22): append to the
session's `conversation_history`. -/
def add_message_to_context (ctx : List Message) (role content : String) :
    List Message :=
  ctx ++ [⟨role, content⟩]

/-- The `messages` array built by `generate_response`
(src/api_client.py lines 136-154): an optional system message first
(`if system_prompt:` — skipped for `None` or the empty string), then the
given conversation history (`if conversation_history:` followed by `extend`,
which for an empty list is the same as always extending), then the current
prompt as a user message. -/
def buildRequestMessages (prompt : String)
    (conversation_history : List Message) (system_prompt : Option String) :
    List Message :=
  (match system_prompt with
   | some sp => if sp = "" then [] else [Message.mk "system" sp]
   | none => []) ++
    conversation_history ++ [Message.mk "user" prompt]

/-- The messages sent to the provider by `generate_response_with_context`
(src/ai_features.py lines 45-76): the prompt is first appended to the
context as a user message; with `include_context` the request carries the
session's system prompt and `context[:-1]` as history (the slice drops the
just-appended user message); without it the request is built from the prompt
alone, with no system prompt and no history. -/
def contextRequestMessages (ctx : List Message) (system_prompt : String)
    (prompt : String) (include_context : Bool) : List Message :=
  let ctx1 := add_message_to_context ctx "user" prompt
  if include_context then
    buildRequestMessages prompt ctx1.dropLast (some system_prompt)
  else
    buildRequestMessages prompt [] none

/-- The outcome fields of `generate_response` that drive the context update:
`success` and `content` (`None`, empty, or actual text). -/
structure GenResult where
  success : Bool
  content : Option String
deriving DecidableEq, Repr

/-- The context after `generate_response_with_context` returns
(src/ai_features.py lines 46 and 80-81): the user prompt is appended
unconditionally before the call; the assistant message is appended only when
`result["success"] and result["content"]` is truthy, i.e. when the call
succeeded with non-`None`, non-empty content.  (The streaming short-circuit
returns `success = false` before the provider call, so it is the failure
case of this function.) -/
def contextAfterExchange (ctx : List Message) (prompt : String)
    (res : GenResult) : List Message :=
  let ctx1 := add_message_to_context ctx "user" prompt
  match res.success, res.content with
  | true, some c => if c = "" then ctx1 else add_message_to_context ctx1 "assistant" c
  | _, _ => ctx1

/-- An alternating prior history `[U1, A1, ..., U(k-1), A(k-1)]` built from
user/assistant content pairs. -/
def interleaveQA : List (String × String) → List Message
  | [] => []
  | (u, a) :: rest => Message.mk "user" u :: Message.mk "assistant" a :: interleaveQA rest

/-! ## Model routing (src/api_client.py lines 69-100) -/

/-- The fixed credential-to-model bindings table
(src/api_client.py lines 93-98). -/
def models : List String :=
  ["deepseek/deepseek-chat",
   "google/gemini-2.0-flash-exp:free",
   "01-ai/yi-large",
   "qwen/qwen-2.5-72b-instruct"]

/-- The designated fallback model (src/api_client.py lines 84 and 90). -/
def default_model : String := "deepseek/deepseek-chat"

/-- Python `list.index` as a total function: the index of the first
occurrence, or `none` where `list.index` raises `ValueError`. -/
def listIndex (x : String) : List String → Option Nat
  | [] => none
  | y :: ys => if y = x then some 0 else (listIndex x ys).map (· + 1)

/-- `get_model_for_api_key` (src/api_client.py lines 69-100), parameterised
by the loaded credential list: the default model for an empty list; the
default when `api_keys.index(api_key)` raises; otherwise
`models[key_index] if key_index < len(models) else models[0]`. -/
def get_model_for_api_key (api_keys : List String) (api_key : String) :
    String :=
  if api_keys.isEmpty then default_model
  else
    match listIndex api_key api_keys with
    | none => default_model
    | some key_index =>
        if h : key_index < models.length then models.get ⟨key_index, h⟩
        else models.headI

theorem listIndex_eq_none_of_not_mem {x : String} {l : List String}
    (h : x ∉ l) : listIndex x l = none := by
  induction l with
  | nil => rfl
  | cons y ys ih =>
      simp only [List.mem_cons, not_or] at h
      simp [listIndex, Ne.symm h.1, ih h.2]

/-! ## Claim theorems C3, C5, C9 -/

/-- C3: after appending user messages `U1..Uk` and assistant replies
`A1..A(k-1)` to an initially empty context, the request built with history
included is exactly `[system directive (if set)] ++ [U1,A1,...,U(k-1),A(k-1)]
++ [Uk]`: the just-appended user message is excluded from the history slice
and occurs exactly once more than in the prior history (never duplicated);
with history excluded the request is only the new user message, with no
directive. -/
theorem C3_request_messages (pairs : List (String × String)) (sys u : String) :
    contextRequestMessages (interleaveQA pairs) sys u true =
        (if sys = "" then [] else [Message.mk "system" sys]) ++
          interleaveQA pairs ++ [Message.mk "user" u] ∧
      contextRequestMessages (interleaveQA pairs) sys u false =
        [Message.mk "user" u] ∧
      (contextRequestMessages (interleaveQA pairs) sys u true).count
          (Message.mk "user" u) =
        (interleaveQA pairs).count (Message.mk "user" u) + 1 := by
  have h1 : contextRequestMessages (interleaveQA pairs) sys u true =
      (if sys = "" then [] else [Message.mk "system" sys]) ++
        interleaveQA pairs ++ [Message.mk "user" u] := by
    simp [contextRequestMessages, add_message_to_context, buildRequestMessages,
      List.dropLast_concat]
  refine ⟨h1, by simp [contextRequestMessages, buildRequestMessages,
    add_message_to_context], ?_⟩
  rw [h1]
  rcases eq_or_ne sys "" with hs | hs
  · simp [hs]
  · simp [hs, List.count_append, List.count_singleton]

/-- C5: the credential-to-model lookup returns the designated default model
(the first entry of the bindings table) in each of three independent
scenarios — empty credential list, credential absent from the list, index
beyond the bindings table — and the model at position `i` for a credential
present at index `i` within the table. -/
theorem C5_model_for_credential (api_keys : List String) (api_key : String) :
    get_model_for_api_key [] api_key = default_model ∧
      (api_key ∉ api_keys →
        get_model_for_api_key api_keys api_key = default_model) ∧
      (∀ i, listIndex api_key api_keys = some i → models.length ≤ i →
        get_model_for_api_key api_keys api_key = default_model) ∧
      (∀ i (h : i < models.length), listIndex api_key api_keys = some i →
        get_model_for_api_key api_keys api_key = models.get ⟨i, h⟩) ∧
      default_model = models.headI := by
  refine ⟨rfl, ?_, ?_, ?_, rfl⟩
  · intro h
    cases api_keys with
    | nil => rfl
    | cons y ys =>
        simp [get_model_for_api_key, listIndex_eq_none_of_not_mem h]
  · intro i hidx hle
    cases api_keys with
    | nil => simp [listIndex] at hidx
    | cons y ys =>
        simp only [get_model_for_api_key, List.isEmpty_cons, Bool.false_eq_true,
          if_false, hidx]
        rw [dif_neg (by omega)]
        rfl
  · intro i h hidx
    cases api_keys with
    | nil => simp [listIndex] at hidx
    | cons y ys =>
        simp only [get_model_for_api_key, List.isEmpty_cons, Bool.false_eq_true,
          if_false, hidx]
        rw [dif_pos h]

/-- Witness for C5 at concrete inputs: empty list, absent credential, index
beyond the 4-entry table, and a present credential at index 1. -/
theorem C5_model_for_credential_witness :
    get_model_for_api_key [] "sk-a" = default_model ∧
      get_model_for_api_key ["sk-a"] "sk-b" = default_model ∧
      get_model_for_api_key ["k1", "k2", "k3", "k4", "k5"] "k5" = default_model ∧
      get_model_for_api_key ["k1", "k2"] "k2" =
        "google/gemini-2.0-flash-exp:free" :=
  ⟨(C5_model_for_credential [] "sk-a").1,
   (C5_model_for_credential ["sk-a"] "sk-b").2.1 (by decide),
   (C5_model_for_credential ["k1", "k2", "k3", "k4", "k5"] "k5").2.2.1 4
     (by decide) (by decide),
   ((C5_model_for_credential ["k1", "k2"] "k2").2.2.2.1 1 (by decide)
     (by decide)).trans rfl⟩

/-- C9: when the provider call fails, the user prompt already appended to the
context is kept with no assistant reply, so the next exchange's request can
contain two consecutive user messages; the assistant message is appended
exactly when the call succeeds with non-empty content. -/
theorem C9_failed_call_keeps_prompt (ctx : List Message) (p : String)
    (res : GenResult) :
    (res.success = false →
        contextAfterExchange ctx p res = ctx ++ [Message.mk "user" p]) ∧
      (∀ c, res.success = true → res.content = some c → c ≠ "" →
        contextAfterExchange ctx p res =
          ctx ++ [Message.mk "user" p, Message.mk "assistant" c]) ∧
      (res.success = false → ∀ p2 sys,
        contextRequestMessages (contextAfterExchange ctx p res) sys p2 true =
          (if sys = "" then [] else [Message.mk "system" sys]) ++
            ctx ++ [Message.mk "user" p, Message.mk "user" p2]) := by
  obtain ⟨s, co⟩ := res
  have hfail : s = false →
      contextAfterExchange ctx p ⟨s, co⟩ = ctx ++ [Message.mk "user" p] := by
    intro hs
    subst hs
    cases co <;> rfl
  refine ⟨hfail, ?_, ?_⟩
  · intro c hs hc hne
    subst hs
    simp only at hc
    subst hc
    simp [contextAfterExchange, add_message_to_context, hne]
  · intro hs p2 sys
    rw [hfail hs]
    simp [contextRequestMessages, add_message_to_context, buildRequestMessages,
      List.dropLast_concat]

/-- Witness for C9 at concrete inputs: one failed exchange, one successful
exchange, and the request of the exchange following a failure, which carries
two consecutive user messages. -/
theorem C9_failed_call_keeps_prompt_witness :
    contextAfterExchange [] "q1" ⟨false, none⟩ = [Message.mk "user" "q1"] ∧
      contextAfterExchange [] "q1" ⟨true, some "a1"⟩ =
        [Message.mk "user" "q1", Message.mk "assistant" "a1"] ∧
      contextRequestMessages (contextAfterExchange [] "q1" ⟨false, none⟩)
          "sys" "q2" true =
        [Message.mk "system" "sys", Message.mk "user" "q1",
         Message.mk "user" "q2"] := by
  refine ⟨(C9_failed_call_keeps_prompt [] "q1" ⟨false, none⟩).1 rfl, ?_, ?_⟩
  · exact (C9_failed_call_keeps_prompt [] "q1" ⟨true, some "a1"⟩).2.1 "a1" rfl
      rfl (by decide)
  · have h := (C9_failed_call_keeps_prompt [] "q1" ⟨false, none⟩).2.2 rfl
      "q2" "sys"
    simpa using h

/-! ## Claims C4, C6, C7: persistence semantics -/

/-- A concrete record used to exhibit the lost-update behaviour. -/
def recA : UsageRecord :=
  { username := "alice", model := "deepseek/deepseek-chat",
    response_time := 2, prompt_tokens := 10, response_tokens := 20 }

/-- A second concrete record. -/
def recB : UsageRecord :=
  { username := "bob", model := "deepseek/deepseek-chat",
    response_time := 4, prompt_tokens := 5, response_tokens := 5 }

/-- Counterexample to C4 as stated: apply `recA` with the save failing, then
`recB` with the save succeeding, starting from no persisted file.  If the
in-memory statistics remained the source of truth for subsequent applies,
`total_conversations` would be 2 after the second apply; the code reloads
the stale on-disk snapshot at the start of every `update_analytics`, so the
first record is lost and the count is 1. -/
theorem C4_counterexample :
    (load_analytics
        (update_analytics recB true
          (update_analytics recA false DiskState.missing).1).1).total_conversations
        = 1 ∧
      (load_analytics
          (update_analytics recB true
            (update_analytics recA false DiskState.missing).1).1).total_conversations
        ≠ 2 := by
  have h0 : (update_analytics recA false DiskState.missing).1 =
      DiskState.missing := rfl
  have h1 : load_analytics (update_analytics recB true DiskState.missing).1 =
      update_stats (load_analytics DiskState.missing) recB :=
    load_after_save _ _
  simp only [h0, h1]
  exact ⟨rfl, by decide⟩

/-- C4 amended: when persisting the snapshot fails during an apply, the
failure is reported and the in-memory mutation of that call is not rolled
back (the computed snapshot does include the record), but the disk is left
unchanged and every apply reloads the persisted snapshot, so a subsequent
apply builds on the last successfully saved on-disk state and the failed
call's mutation is lost to it. -/
theorem C4_failed_save_loses_update (r : UsageRecord) (d : DiskState) :
    (update_stats (load_analytics d) r).total_conversations =
        (load_analytics d).total_conversations + 1 ∧
      (update_analytics r false d).2 = true ∧
      (update_analytics r false d).1 = d ∧
      (∀ r' ok, update_analytics r' ok (update_analytics r false d).1 =
        update_analytics r' ok d) := by
  refine ⟨rfl, rfl, rfl, ?_⟩
  intro r' ok
  rfl

/-- C6: persisting a populated statistics snapshot and loading it back
reproduces an identical structure — the same counts, total tokens, average,
and `model_usage` / `user_activity` mappings. -/
theorem C6_save_load_roundtrip (a : Analytics) (d : DiskState) :
    load_analytics (save_analytics a true d).1 = a :=
  load_after_save a d

/-- C7: loading when no persisted file exists, or when the persisted content
cannot be parsed, returns the zero-valued default (zero conversations, zero
tokens, zero average, empty `model_usage` and `user_activity`) as a valid
non-error result. -/
theorem C7_load_missing_or_corrupt :
    load_analytics DiskState.missing = defaultAnalytics ∧
      load_analytics DiskState.corrupt = defaultAnalytics ∧
      defaultAnalytics =
        { total_conversations := 0, total_tokens := 0, avg_response_time := 0,
          model_usage := [], user_activity := [] } :=
  ⟨rfl, rfl, rfl⟩

/-! ## Analytics summary (src/analytics.py lines 193-216) -/

/-- Python `round(x, 2)` on exact values: scale by 100, round half to even,
scale back.  The floor and the comparison of the fractional part with 1/2
are carried out on the numerator and denominator so that the function is a
plain integer computation. -/
def round2 (q : ℚ) : ℚ :=
  let scaled := q * 100
  let f : ℤ := scaled.num.fdiv (scaled.den : ℤ)
  let rem : ℤ := scaled.num - f * (scaled.den : ℤ)
  let n : ℤ :=
    if 2 * rem < (scaled.den : ℤ) then f
    else if (scaled.den : ℤ) < 2 * rem then f + 1
    else if f % 2 = 0 then f else f + 1
  (n : ℚ) / 100

/-- Whatever the input, `round2` returns an integer number of hundredths. -/
theorem round2_eq_int_div_100 (q : ℚ) : ∃ n : ℤ, round2 q = (n : ℚ) / 100 :=
  ⟨_, rfl⟩

/-- The relation "has at least as large a count": the descending comparison
used by `sorted(d.items(), key=lambda x: x[1], reverse=True)`. -/
def countGE (x y : String × Nat) : Prop := y.2 ≤ x.2

instance : DecidableRel countGE := fun x y => Nat.decLe y.2 x.2

instance : IsTotal (String × Nat) countGE := ⟨fun a b => Nat.le_total b.2 a.2⟩

instance : IsTrans (String × Nat) countGE :=
  ⟨fun _ _ _ h1 h2 => Nat.le_trans h2 h1⟩

/-- Python `sorted(d.items(), key=lambda x: x[1], reverse=True)`: a stable
sort of the insertion-ordered items by descending count.  Python's sort is
stable, and a stable sort is determined by its comparison, so it is modelled
by the stable insertion sort. -/
def sortByCountDesc (l : List (String × Nat)) : List (String × Nat) :=
  List.insertionSort countGE l

/-- The dict returned by `get_analytics_summary`. -/
structure AnalyticsSummary where
  total_conversations : Nat
  total_tokens : Nat
  avg_response_time : ℚ
  top_models : List (String × Nat)
  top_users : List (String × Nat)
deriving DecidableEq, Repr

/-- `get_analytics_summary` (src/analytics.py lines 193-216): load the
snapshot, sort models and users by descending count, and return the totals,
the average rounded to 2 decimal places, and the first five entries of each
sorted list. -/
def get_analytics_summary (d : DiskState) : AnalyticsSummary :=
  let analytics := load_analytics d
  { total_conversations := analytics.total_conversations
    total_tokens := analytics.total_tokens
    avg_response_time := round2 analytics.avg_response_time
    top_models := (sortByCountDesc analytics.model_usage).take 5
    top_users := (sortByCountDesc analytics.user_activity).take 5 }

/-! ## Stability of the descending sort -/

theorem filter_orderedInsert (a : String × Nat) (l : List (String × Nat))
    (c : Nat) :
    (List.orderedInsert countGE a l).filter (fun p => p.2 == c) =
      if a.2 == c then a :: l.filter (fun p => p.2 == c)
      else l.filter (fun p => p.2 == c) := by
  induction l with
  | nil =>
      rw [List.orderedInsert]
      by_cases hac : a.2 = c <;> simp [hac, List.filter_cons]
  | cons b l ih =>
      rw [List.orderedInsert]
      by_cases hab : countGE a b
      · rw [if_pos hab]
        simp [List.filter_cons]
      · rw [if_neg hab, List.filter_cons, ih]
        by_cases hac : a.2 = c
        · have hbc : ¬ b.2 = c := by
            unfold countGE at hab
            omega
          simp [hac, hbc, List.filter_cons]
        · by_cases hbc : b.2 = c <;>
            simp [hac, hbc, List.filter_cons]

theorem filter_sortByCountDesc (l : List (String × Nat)) (c : Nat) :
    (sortByCountDesc l).filter (fun p => p.2 == c) =
      l.filter (fun p => p.2 == c) := by
  induction l with
  | nil => rfl
  | cons a l ih =>
      show (List.orderedInsert countGE a (List.insertionSort countGE l)).filter
          (fun p => p.2 == c) = _
      rw [filter_orderedInsert,
        show List.insertionSort countGE l = sortByCountDesc l from rfl, ih]
      by_cases hac : a.2 = c <;> simp [hac, List.filter_cons]

/-! ## Claim theorems C8 and C10 -/

/-- C8: the summary returns the stored totals plus the top 5 models and top
5 users ordered by descending count, where the descending ordering is a
stable sort of the insertion-ordered dict items: the output is a permutation
of the items, sorted by descending count, and entries with any equal count
keep their insertion/iteration order (the filtered subsequence at each count
is unchanged). -/
theorem C8_summary_top5 (d : DiskState) :
    (get_analytics_summary d).total_conversations =
        (load_analytics d).total_conversations ∧
      (get_analytics_summary d).total_tokens =
        (load_analytics d).total_tokens ∧
      (get_analytics_summary d).top_models =
        (sortByCountDesc (load_analytics d).model_usage).take 5 ∧
      (get_analytics_summary d).top_users =
        (sortByCountDesc (load_analytics d).user_activity).take 5 ∧
      (∀ l : List (String × Nat),
        List.Perm (sortByCountDesc l) l ∧
          List.Sorted countGE (sortByCountDesc l) ∧
          ∀ c, (sortByCountDesc l).filter (fun p => p.2 == c) =
            l.filter (fun p => p.2 == c)) :=
  ⟨rfl, rfl, rfl, rfl, fun l =>
    ⟨List.perm_insertionSort countGE l, List.sorted_insertionSort countGE l,
     fun c => filter_sortByCountDesc l c⟩⟩

/-- A populated snapshot whose average (1/3) is not an integer number of
hundredths, so rounding changes it. -/
def exampleAnalytics : Analytics :=
  { total_conversations := 1, total_tokens := 30,
    avg_response_time := 1 / 3,
    model_usage := [("deepseek/deepseek-chat", 1)],
    user_activity := [("alice", 1)] }

/-- C10: the summary reports `round(avg_response_time, 2)` — the stored
average rounded to 2 decimal places, which for a stored average of 1/3 is
not the exact stored value — while `total_conversations` and `total_tokens`
are returned unmodified. -/
theorem C10_summary_rounds_avg (d : DiskState) :
    (get_analytics_summary d).avg_response_time =
        round2 (load_analytics d).avg_response_time ∧
      (get_analytics_summary d).total_conversations =
        (load_analytics d).total_conversations ∧
      (get_analytics_summary d).total_tokens =
        (load_analytics d).total_tokens ∧
      (get_analytics_summary
            (DiskState.stored (encodeAnalytics exampleAnalytics))).avg_response_time
        ≠
        (load_analytics
            (DiskState.stored (encodeAnalytics exampleAnalytics))).avg_response_time := by
  refine ⟨rfl, rfl, rfl, ?_⟩
  have hload : load_analytics (DiskState.stored (encodeAnalytics exampleAnalytics)) =
      exampleAnalytics := by
    simp [load_analytics, decodeAnalytics_encodeAnalytics]
  have h1 : (get_analytics_summary
      (DiskState.stored (encodeAnalytics exampleAnalytics))).avg_response_time =
      round2 exampleAnalytics.avg_response_time := by
    simp [get_analytics_summary, hload]
  rw [h1, hload]
  show round2 ((1 : ℚ) / 3) ≠ (1 : ℚ) / 3
  obtain ⟨n, hn⟩ := round2_eq_int_div_100 ((1 : ℚ) / 3)
  rw [hn]
  intro h
  have h3 : (n : ℚ) * 3 = 100 := by
    field_simp at h
    linarith
  have h4 : n * 3 = 100 := by exact_mod_cast h3
  omega

end Swawam
